import Mathlib

/-!
Verification of the HTTP responder service in `src/server.js`:

  const express = require("express");
  const app = express();
  const PORT = process.env.PORT || 8080;
  app.get("/", (req, res) => res.send("Hello from Node.js app in Kubernetes!"));
  app.listen(PORT, () => console.log(`Server running on port ${PORT}`));

The application code is embedded directly.  The behaviour of the host
(the JavaScript `||` operator, the Express 4 router and `res.send`, and
the Node.js process model) is embedded from the documented semantics of
those hosts, since the application delegates dispatch, response
formatting and error handling entirely to them.
-/

namespace ServerJs

/-- A JavaScript value as far as this program produces one: the string read
from the environment, or the numeric literal `8080`. -/
inductive JSValue where
  | str : String → JSValue
  | num : Nat → JSValue
deriving DecidableEq, Repr

/-- Embeds `const PORT = process.env.PORT || 8080` (server.js line 3).
`process.env.PORT` is `undefined` when the variable is absent, otherwise the
raw string; the JavaScript `||` operator keeps the left operand unless it is
falsy, and the only falsy string is the empty string.  No parsing or
validation of the string happens anywhere in the program. -/
def resolvePort (env : Option String) : JSValue :=
  match env with
  | none => JSValue.num 8080
  | some s => if s = "" then JSValue.num 8080 else JSValue.str s

/-- The constant greeting sent by the route handler (server.js line 5). -/
def greeting : String := "Hello from Node.js app in Kubernetes!"

/-- An HTTP request as far as the program inspects one: Express dispatches on
the method and the pathname; the query string and the headers are carried
along but the registered handler never reads them. -/
structure Request where
  method : String
  path : String
  queryString : String
  headers : List (String × String)
deriving DecidableEq, Repr

/-- The observable parts of an HTTP response: status code, the value of the
Content-Type header, and the body. -/
structure Response where
  status : Nat
  contentType : String
  body : String
deriving DecidableEq, Repr

/-- Express 4 `res.send` applied to a string body with no Content-Type set
by the handler (the only way server.js responds): `send` calls
`this.type("html")`, so the response carries status 200, the header
`Content-Type: text/html; charset=utf-8`, and the given string as body
(express lib/response.js). -/
def sendString (s : String) : Response :=
  { status := 200, contentType := "text/html; charset=utf-8", body := s }

/-- The Express final handler for a request no route matched: status 404 with
an HTML error page whose message line is `Cannot <METHOD> <path>`
(the finalhandler package).  The body below keeps that message line. -/
def notFound (req : Request) : Response :=
  { status := 404
    contentType := "text/html; charset=utf-8"
    body := "Cannot " ++ req.method ++ " " ++ req.path }

/-- Dispatch of the app built in server.js, following the Express 4 router:
* the single registered route is `app.get("/")`, whose handler sends
  `greeting`;
* a route registered with `app.get` also answers HEAD requests when no HEAD
  route exists (express lib/router/route.js, `_handles_method`); the response
  is computed by the same handler and the body is then suppressed;
* an OPTIONS request for a path that has routes is answered by the router
  itself with status 200 and the list of allowed methods as body
  (express lib/router/index.js, the default options response);
* every other request falls through to the 404 final handler. -/
def handle (req : Request) : Response :=
  if req.path = "/" ∧ req.method = "GET" then
    sendString greeting
  else if req.path = "/" ∧ req.method = "HEAD" then
    { sendString greeting with body := "" }
  else if req.path = "/" ∧ req.method = "OPTIONS" then
    { status := 200, contentType := "text/html; charset=utf-8", body := "GET,HEAD" }
  else
    notFound req

/-- Renders the port value the way the template literal on server.js line 7
does: a string interpolates as itself, a number in decimal. -/
def portString : JSValue → String
  | JSValue.str s => s
  | JSValue.num n => toString n

/-- The single line logged by the listen callback (server.js line 7). -/
def startupLog (port : JSValue) : String :=
  "Server running on port " ++ portString port

/-- The bind errors the spec names for `app.listen`. -/
inductive BindError where
  | addrInUse
  | accessDenied
deriving DecidableEq, Repr

/-- The message Node.js logs for each bind error before the process dies. -/
def bindErrorMessage : BindError → String
  | BindError.addrInUse => "Error: listen EADDRINUSE"
  | BindError.accessDenied => "Error: listen EACCES"

/-- Outcome of process startup. -/
inductive StartOutcome where
  | serving (logged : String)
  | exited (code : Nat) (loggedCause : String)
deriving DecidableEq, Repr

/-- Embeds `app.listen(PORT, () => console.log(...))` (server.js line 7)
together with the Node.js default it relies on: server.js installs no
`error` listener, so a bind failure makes the emitted error an uncaught
exception — Node logs the error to stderr and terminates the process with
exit code 1, with no retry.  On success the callback runs and logs the
startup line once. -/
def startServer (port : JSValue) : Option BindError → StartOutcome
  | none => StartOutcome.serving (startupLog port)
  | some e => StartOutcome.exited 1 (bindErrorMessage e)

/-- Exit code of a Node.js process whose event loop ends with no pending
error: 0.  Nothing in server.js ever calls `process.exit` with another
code. -/
def normalShutdownCode : Nat := 0

/-- The server configuration the spec describes: the resolved port and the
constant response body.  Both are bound once (a `const` and a string
literal); nothing in the program writes to either afterwards. -/
structure Config where
  port : JSValue
  responseBody : String
deriving DecidableEq, Repr

/-- Configuration built at process start from the environment
(server.js lines 3 and 5). -/
def initConfig (env : Option String) : Config :=
  { port := resolvePort env, responseBody := greeting }

/-- One request-response step of the running service.  The handler closes
over constants only, so the step returns the configuration it was given. -/
def serviceStep (c : Config) (req : Request) : Response × Config :=
  (handle req, c)

/-- Runs the service over a list of requests, threading the configuration
through every step. -/
def runService (c : Config) : List Request → List Response × Config
  | [] => ([], c)
  | r :: rs =>
      let step := serviceStep c r
      let rest := runService step.2 rs
      (step.1 :: rest.1, rest.2)

/-- An observable effect of the process, as the spec classifies them. -/
inductive Effect where
  | consoleLog : String → Effect
  | httpResponse : Response → Effect
deriving DecidableEq, Repr

/-- Observable effects of a successful startup: the listen callback logs one
line and nothing else in server.js performs I/O at startup. -/
def startupEffects (port : JSValue) : List Effect :=
  [Effect.consoleLog (startupLog port)]

/-- Observable effects of handling one request: the handler only calls
`res.send`, so the sole effect is the HTTP response. -/
def requestEffects (req : Request) : List Effect :=
  [Effect.httpResponse (handle req)]

end ServerJs

namespace ServerJs

/-- C1: every GET request for path "/" — whatever its query string and
headers — is answered with status 200 and the exact body
"Hello from Node.js app in Kubernetes!". -/
theorem get_root_ok (q : String) (hs : List (String × String)) :
    (handle { method := "GET", path := "/", queryString := q, headers := hs }).status = 200 ∧
    (handle { method := "GET", path := "/", queryString := q, headers := hs }).body =
      "Hello from Node.js app in Kubernetes!" := by
  simp [handle, sendString, greeting]

/-- C2 counterexample: with PORT set to the non-numeric string "abc", the
resolved port is the string "abc" itself, not the default 8080 — the
JavaScript fallback fires only on falsy values. -/
theorem port_non_numeric_no_fallback :
    resolvePort (some "abc") = JSValue.str "abc" ∧
    JSValue.str "abc" ≠ JSValue.num 8080 := by
  constructor
  · rfl
  · intro h
    exact JSValue.noConfusion h

/-- C2 amended: when PORT is absent the port resolves to the default 8080,
and when PORT is set to any non-empty string — numeric or not — that string
is kept unchanged, with no fallback and no error. -/
theorem port_fallback_amended (s : String) (h : s ≠ "") :
    resolvePort none = JSValue.num 8080 ∧
    resolvePort (some s) = JSValue.str s := by
  refine ⟨rfl, ?_⟩
  simp [resolvePort, h]

/-- Witness for the amended C2 at the concrete input "abc". -/
theorem port_fallback_amended_witness :
    resolvePort none = JSValue.num 8080 ∧
    resolvePort (some "abc") = JSValue.str "abc" :=
  port_fallback_amended "abc" (by decide)

/-- C3 counterexample: the response to a concrete GET "/" request carries
Content-Type "text/html; charset=utf-8" (what Express res.send sets for a
string body), not "text/plain". -/
theorem content_type_not_plain :
    (handle { method := "GET", path := "/", queryString := "", headers := [] }).contentType =
      "text/html; charset=utf-8" ∧
    (handle { method := "GET", path := "/", queryString := "", headers := [] }).contentType ≠
      "text/plain" := by
  constructor
  · rfl
  · decide

/-- C3 amended: every response to GET "/" carries the Content-Type header
"text/html; charset=utf-8", the Express default for string bodies. -/
theorem content_type_html (q : String) (hs : List (String × String)) :
    (handle { method := "GET", path := "/", queryString := q, headers := hs }).contentType =
      "text/html; charset=utf-8" := by
  simp [handle, sendString]

/-- C4 counterexample: a concrete HEAD request for "/" — whose method is not
GET — is answered with status 200, because an Express GET route also answers
HEAD; so not every such request gets a non-200 status. -/
theorem head_root_is_200 :
    (handle { method := "HEAD", path := "/", queryString := "", headers := [] }).status =
      200 := by
  decide

/-- C4 amended: every request for a path other than "/", and every request
for "/" whose method is none of GET, HEAD and OPTIONS, is answered with
status 404; the handler is total, so no request crashes the process.  (HEAD
and OPTIONS on "/" are answered 200 by the framework itself.) -/
theorem other_requests_404 (req : Request)
    (h : req.path ≠ "/" ∨ (req.method ≠ "GET" ∧ req.method ≠ "HEAD" ∧ req.method ≠ "OPTIONS")) :
    (handle req).status = 404 := by
  rcases h with h | ⟨hg, hh, ho⟩ <;>
    simp [handle, notFound, *]

/-- Witness for the amended C4: a POST request for "/" and a GET request for
"/foo" are both answered 404. -/
theorem other_requests_404_witness :
    (handle { method := "POST", path := "/", queryString := "", headers := [] }).status = 404 ∧
    (handle { method := "GET", path := "/foo", queryString := "", headers := [] }).status = 404 :=
  ⟨other_requests_404 _ (Or.inr (by decide)),
   other_requests_404 _ (Or.inl (by decide))⟩

/-- C5: a bind failure on the configured port makes the process exit with the
non-zero code 1 after the cause is logged, and it never keeps serving (no
retry); a normal shutdown has exit code 0. -/
theorem bind_failure_exits (port : JSValue) (e : BindError) :
    startServer port (some e) = StartOutcome.exited 1 (bindErrorMessage e) ∧
    (1 : Nat) ≠ 0 ∧
    (∀ logged, startServer port (some e) ≠ StartOutcome.serving logged) ∧
    normalShutdownCode = 0 := by
  refine ⟨rfl, by decide, ?_, rfl⟩
  intro logged h
  exact StartOutcome.noConfusion h

/-- C6: two GET "/" requests that differ only in query string and headers
receive identical responses, and that common response has status 200 —
the handler reads neither the query string nor the headers. -/
theorem get_root_header_independent (q₁ q₂ : String)
    (hs₁ hs₂ : List (String × String)) :
    handle { method := "GET", path := "/", queryString := q₁, headers := hs₁ } =
      handle { method := "GET", path := "/", queryString := q₂, headers := hs₂ } ∧
    (handle { method := "GET", path := "/", queryString := q₁, headers := hs₁ }).status =
      200 := by
  constructor
  · simp [handle]
  · simp [handle, sendString]

/-- C7: the configuration built at process start is never mutated — running
the service over any sequence of requests from any environment returns the
configuration it started with. -/
theorem config_immutable (env : Option String) (reqs : List Request) :
    (runService (initConfig env) reqs).2 = initConfig env := by
  generalize initConfig env = c
  induction reqs generalizing c with
  | nil => rfl
  | cons r rs ih => simpa [runService, serviceStep] using ih c

/-- C8: a successful startup produces exactly one observable effect, a
console log line that states the bound port, and handling a request produces
exactly one observable effect, the HTTP response itself. -/
theorem single_startup_log (port : JSValue) (req : Request) :
    (startupEffects port).length = 1 ∧
    startupEffects port =
      [Effect.consoleLog ("Server running on port " ++ portString port)] ∧
    (requestEffects req).length = 1 ∧
    requestEffects req = [Effect.httpResponse (handle req)] := by
  exact ⟨rfl, rfl, rfl, rfl⟩

/-- C10: a PORT set to the empty string resolves to the default 8080, and a
PORT set to any non-empty string is kept as that exact string — no
validation and no numeric conversion — which is the value handed to
app.listen. -/
theorem port_passthrough (s : String) (h : s ≠ "") :
    resolvePort (some "") = JSValue.num 8080 ∧
    resolvePort (some s) = JSValue.str s ∧
    startServer (resolvePort (some s)) none =
      StartOutcome.serving (startupLog (JSValue.str s)) := by
  refine ⟨rfl, ?_, ?_⟩ <;> simp [resolvePort, h, startServer]

/-- Witness for C10 at the concrete non-numeric input "not-a-number". -/
theorem port_passthrough_witness :
    resolvePort (some "") = JSValue.num 8080 ∧
    resolvePort (some "not-a-number") = JSValue.str "not-a-number" ∧
    startServer (resolvePort (some "not-a-number")) none =
      StartOutcome.serving (startupLog (JSValue.str "not-a-number")) :=
  port_passthrough "not-a-number" (by decide)

end ServerJs
